import Mathlib

/-!
Shallow embedding of the budget-analytics aggregation engine
(src/app.py, src/models.py) and proofs about its behaviour.

Transactions carry a calendar date, a free-text category, a signed
rational amount, a type (income or expense) and a description.  The
aggregation functions below mirror the Python analytics functions:
`analyze_spending`, `analyze_monthly`, the `/api/analysis`,
`/api/monthly`, `/api/comparison` and `/api/stats` endpoint bodies, and
the transaction-construction boundary of `POST /api/transactions` and
the CSV upload row loop.  Money is modelled with ℚ and Python's
`round(x, 2)` with a consistent half-up rounding `round2`.
-/

namespace BudgetAnalytics

/-- Calendar date: year, month (1-12), day. -/
structure Date where
  year : Nat
  month : Nat
  day : Nat
deriving DecidableEq

/-- Lexicographic comparison of dates, mirroring datetime ordering. -/
def dateLe (a b : Date) : Bool :=
  decide (a.year < b.year ∨ (a.year = b.year ∧
    (a.month < b.month ∨ (a.month = b.month ∧ a.day ≤ b.day))))

/-- A well-formed calendar date has a month in 1..12. -/
def ValidDate (d : Date) : Prop := 1 ≤ d.month ∧ d.month ≤ 12

instance : DecidablePred ValidDate := fun d => by
  unfold ValidDate; infer_instance

/-- The `TransactionType` enum of models.py: INCOME or EXPENSE. -/
inductive TransactionType where
  | income
  | expense
deriving DecidableEq

/-- The `Transaction` model of models.py, restricted to the fields the
aggregation engine reads (`id` and `created_at` are storage plumbing). -/
structure Transaction where
  date : Date
  category : String
  amount : ℚ
  type : TransactionType
  description : String
deriving DecidableEq

/-- Month index of a date: the calendar month as a single number
(pandas `Period` with frequency 'M'). -/
def monthIndex (d : Date) : Nat := d.year * 12 + (d.month - 1)

/-- Python `round(x, 2)` modelled over ℚ with consistent rounding to a
multiple of 1/100. -/
def round2 (q : ℚ) : ℚ := (round (q * 100) : ℤ) / 100

/-- A rational that is exactly representable with 2 decimal places. -/
def TwoDec (q : ℚ) : Prop := round2 q = q

/-- Date filtering of `get_transactions_as_dataframe`: keep transactions
with `date >= start_date` (when given) and `date <= end_date` (when given). -/
def filterByDate (txns : List Transaction) (startD endD : Option Date) :
    List Transaction :=
  let q1 := match startD with
    | some s => txns.filter (fun t => dateLe s t.date)
    | none => txns
  match endD with
  | some e => q1.filter (fun t => dateLe t.date e)
  | none => q1

/-- `df[df['type'] == 'income']['amount'].sum()`: income amounts summed
with their stored sign. -/
def incomeSum (txns : List Transaction) : ℚ :=
  ((txns.filter (fun t => t.type == TransactionType.income)).map
    (fun t => t.amount)).sum

/-- `df[df['type'] == 'expense']['amount'].abs().sum()`: per-record
absolute values of expense amounts, then summed. -/
def expenseAbsSum (txns : List Transaction) : ℚ :=
  ((txns.filter (fun t => t.type == TransactionType.expense)).map
    (fun t => |t.amount|)).sum

/-- Raw signed sum over expense records, as `func.sum(Transaction.amount)`
computes it in `get_stats` (no per-record absolute value). -/
def expenseRawSum (txns : List Transaction) : ℚ :=
  ((txns.filter (fun t => t.type == TransactionType.expense)).map
    (fun t => t.amount)).sum

/-- Total absolute spending of one category within a list of expense
records: the groupby-sum cell for that category. -/
def catAbsSum (expenses : List Transaction) (c : String) : ℚ :=
  ((expenses.filter (fun t => t.category == c)).map (fun t => |t.amount|)).sum

/-- `analyze_spending` of app.py: keep expense records, take per-record
absolute amounts, group by category and sum; empty input gives the empty
mapping.  The mapping is an association list keyed by the distinct
categories appearing among the expense records. -/
def analyze_spending (txns : List Transaction) : List (String × ℚ) :=
  if txns.isEmpty then []
  else
    (((txns.filter (fun t => t.type == TransactionType.expense)).map
        (fun t => t.category)).dedup).map
      (fun c => (c, catAbsSum
        (txns.filter (fun t => t.type == TransactionType.expense)) c))

/-- Fold computing the minimum of a list of dates, seeded with one date
(pandas `df['date'].min()` on a nonempty frame). -/
def minD (d : Date) (ds : List Date) : Date :=
  ds.foldl (fun a b => if dateLe b a then b else a) d

/-- Fold computing the maximum of a list of dates, seeded with one date
(pandas `df['date'].max()` on a nonempty frame). -/
def maxD (d : Date) (ds : List Date) : Date :=
  ds.foldl (fun a b => if dateLe a b then b else a) d

/-- Earliest transaction date; only meaningful on nonempty input, which is
how the source uses it (every caller guards with `df.empty`). -/
def minDateOf : List Transaction → Date
  | [] => ⟨0, 0, 0⟩
  | t :: ts => minD t.date (ts.map (fun u => u.date))

/-- Latest transaction date; only meaningful on nonempty input. -/
def maxDateOf : List Transaction → Date
  | [] => ⟨0, 0, 0⟩
  | t :: ts => maxD t.date (ts.map (fun u => u.date))

/-- Income total of one calendar month: `monthly_income.get(month, 0)` of
`analyze_monthly` (groupby month of the income records, missing month 0). -/
def monthlyIncome (txns : List Transaction) (m : Nat) : ℚ :=
  ((txns.filter (fun t =>
      t.type == TransactionType.income && monthIndex t.date == m)).map
    (fun t => t.amount)).sum

/-- Absolute expense total of one calendar month:
`monthly_expenses.get(month, 0)` of `analyze_monthly`. -/
def monthlyExpenses (txns : List Transaction) (m : Nat) : ℚ :=
  ((txns.filter (fun t =>
      t.type == TransactionType.expense && monthIndex t.date == m)).map
    (fun t => |t.amount|)).sum

/-- One row of the monthly breakdown returned by `analyze_monthly`. -/
structure MonthlyEntry where
  month : Nat
  income : ℚ
  expenses : ℚ
  savings : ℚ
  savings_rate : ℚ
deriving DecidableEq

/-- The per-month record appended inside `analyze_monthly`'s loop body. -/
def monthEntry (txns : List Transaction) (m : Nat) : MonthlyEntry :=
  let income := monthlyIncome txns m
  let expenses := monthlyExpenses txns m
  let savings := income - expenses
  let savings_rate := if 0 < income then savings / income * 100 else 0
  { month := m, income := round2 income, expenses := round2 expenses,
    savings := round2 savings, savings_rate := round2 savings_rate }

/-- `analyze_monthly` of app.py: empty input gives the empty sequence;
otherwise one entry per calendar month of
`pd.period_range(df['date'].min(), df['date'].max(), freq='M')`. -/
def analyze_monthly (txns : List Transaction) : List MonthlyEntry :=
  if txns.isEmpty then []
  else
    (List.range (monthIndex (maxDateOf txns) + 1 -
        monthIndex (minDateOf txns))).map
      (fun i => monthEntry txns (monthIndex (minDateOf txns) + i))

/-- Outcome of an endpoint call: HTTP 200 with a payload, 404 not found,
400 bad request, or 500 internal error. -/
inductive ApiResult (α : Type) where
  | ok : α → ApiResult α
  | notFound : String → ApiResult α
  | badRequest : String → ApiResult α
  | serverError : String → ApiResult α

/-- The `summary` object of `/api/analysis`. -/
structure Summary where
  total_income : ℚ
  total_expenses : ℚ
  total_savings : ℚ
  savings_rate : ℚ
deriving DecidableEq

/-- The JSON body of a successful `/api/analysis` response. -/
structure AnalysisPayload where
  summary : Summary
  category_spending : List (String × ℚ)
  range_start : Date
  range_end : Date
deriving DecidableEq

/-- Body of `get_analysis` applied to the already-filtered frame:
404 on empty, otherwise summary totals, category spending and date range. -/
def analysisOf (df : List Transaction) : ApiResult AnalysisPayload :=
  if df.isEmpty then ApiResult.notFound "No transactions found"
  else
    let total_income := incomeSum df
    let total_expenses := expenseAbsSum df
    let total_savings := total_income - total_expenses
    ApiResult.ok
      { summary :=
          { total_income := round2 total_income
            total_expenses := round2 total_expenses
            total_savings := round2 total_savings
            savings_rate := round2 (if 0 < total_income then
              total_savings / total_income * 100 else 0) }
        category_spending := analyze_spending df
        range_start := minDateOf df
        range_end := maxDateOf df }

/-- `GET /api/analysis`: fetch the date-filtered transactions and analyze. -/
def get_analysis (allTxns : List Transaction) (startD endD : Option Date) :
    ApiResult AnalysisPayload :=
  analysisOf (filterByDate allTxns startD endD)

/-- Body of `get_monthly_analysis` applied to the filtered frame. -/
def monthlyOf (df : List Transaction) : ApiResult (List MonthlyEntry) :=
  if df.isEmpty then ApiResult.notFound "No transactions found"
  else ApiResult.ok (analyze_monthly df)

/-- `GET /api/monthly`: fetch the date-filtered transactions and break
them down by month. -/
def get_monthly_analysis (allTxns : List Transaction)
    (startD endD : Option Date) : ApiResult (List MonthlyEntry) :=
  monthlyOf (filterByDate allTxns startD endD)

/-- Income of one comparison period:
`df[df['type'] == 'income']['amount'].sum() if not df.empty else 0`. -/
def periodIncome (allTxns : List Transaction) (s e : Date) : ℚ :=
  if (filterByDate allTxns (some s) (some e)).isEmpty then 0
  else incomeSum (filterByDate allTxns (some s) (some e))

/-- Absolute expenses of one comparison period:
`df[df['type'] == 'expense']['amount'].abs().sum() if not df.empty else 0`. -/
def periodExpenses (allTxns : List Transaction) (s e : Date) : ℚ :=
  if (filterByDate allTxns (some s) (some e)).isEmpty then 0
  else expenseAbsSum (filterByDate allTxns (some s) (some e))

/-- One period block of the `/api/comparison` response. -/
structure PeriodSummary where
  income : ℚ
  expenses : ℚ
  savings : ℚ
deriving DecidableEq

/-- The `changes` block of the `/api/comparison` response. -/
structure Changes where
  income_change : ℚ
  income_change_pct : ℚ
  expense_change : ℚ
  expense_change_pct : ℚ
deriving DecidableEq

/-- The JSON body of a successful `/api/comparison` response. -/
structure ComparisonPayload where
  period1 : PeriodSummary
  period2 : PeriodSummary
  changes : Changes
deriving DecidableEq

/-- `GET /api/comparison` (`compare_periods` of app.py): totals of the two
date-filtered periods, their signed differences, and percentage changes
against the period-1 baseline guarded by `if p1 > 0 else 0`. -/
def compare_periods (allTxns : List Transaction) (p1s p1e p2s p2e : Date) :
    ComparisonPayload :=
  let p1_income := periodIncome allTxns p1s p1e
  let p1_expenses := periodExpenses allTxns p1s p1e
  let p2_income := periodIncome allTxns p2s p2e
  let p2_expenses := periodExpenses allTxns p2s p2e
  let income_change := p2_income - p1_income
  let expense_change := p2_expenses - p1_expenses
  let income_change_pct :=
    if 0 < p1_income then income_change / p1_income * 100 else 0
  let expense_change_pct :=
    if 0 < p1_expenses then expense_change / p1_expenses * 100 else 0
  { period1 :=
      { income := round2 p1_income, expenses := round2 p1_expenses,
        savings := round2 (p1_income - p1_expenses) }
    period2 :=
      { income := round2 p2_income, expenses := round2 p2_expenses,
        savings := round2 (p2_income - p2_expenses) }
    changes :=
      { income_change := round2 income_change
        income_change_pct := round2 income_change_pct
        expense_change := round2 expense_change
        expense_change_pct := round2 expense_change_pct } }

/-- The JSON body of `/api/stats`. -/
structure StatsPayload where
  total_transactions : Nat
  total_income : ℚ
  total_expenses : ℚ
  net_savings : ℚ
  unique_categories : Nat
deriving DecidableEq

/-- `GET /api/stats` (`get_stats` of app.py): counts and totals over the
full unfiltered record set.  Note the source takes `abs` of the raw
expense *sum* (not per record) and computes net savings as
`total_income + total_expenses` with the raw signed expense sum. -/
def get_stats (txns : List Transaction) : StatsPayload :=
  let total_income := incomeSum txns
  let total_expenses := expenseRawSum txns
  { total_transactions := txns.length
    total_income := round2 total_income
    total_expenses := round2 |total_expenses|
    net_savings := round2 (total_income + total_expenses)
    unique_categories := ((txns.map (fun t => t.category)).dedup).length }

/-- The `type` mapping at the construction boundary, shared by
`create_transaction` and the CSV upload loop:
`TransactionType.INCOME if value == 'income' else TransactionType.EXPENSE`. -/
def parse_type (s : String) : TransactionType :=
  if s == "income" then TransactionType.income else TransactionType.expense

/-- The JSON body accepted by `POST /api/transactions`; `none` marks an
absent field. -/
structure CreateBody where
  date : Option Date
  category : Option String
  amount : Option ℚ
  type : Option String
  description : Option String

/-- `create_transaction` of app.py: reject when a required field is
missing, otherwise construct and store the transaction. -/
def create_transaction (body : CreateBody) : ApiResult Transaction :=
  match body.date, body.category, body.amount, body.type with
  | some d, some c, some a, some ty =>
    ApiResult.ok
      { date := d, category := c, amount := a, type := parse_type ty,
        description := body.description.getD "" }
  | _, _, _, _ =>
    ApiResult.badRequest "Required fields: date, category, amount, type"

/-- One row of the CSV upload loop of `upload_csv`: the transaction
constructed and added for that row. -/
def csv_row_to_transaction (d : Date) (c : String) (a : ℚ) (ty : String)
    (desc : Option String) : Transaction :=
  { date := d, category := c, amount := a, type := parse_type ty,
    description := desc.getD "" }

/-! ### Basic lemmas about rounding -/

theorem round2_intDiv (n : ℤ) : round2 ((n : ℚ) / 100) = (n : ℚ) / 100 := by
  unfold round2
  rw [div_mul_cancel₀ _ (by norm_num : (100 : ℚ) ≠ 0), round_intCast]

theorem twoDec_round2 (q : ℚ) : TwoDec (round2 q) := by
  unfold TwoDec
  exact round2_intDiv (round (q * 100))

theorem round2_zero : round2 0 = 0 := by
  unfold round2
  rw [zero_mul, round_zero]
  norm_num

theorem twoDec_iff (q : ℚ) : TwoDec q ↔ ∃ n : ℤ, q = (n : ℚ) / 100 := by
  constructor
  · intro h
    exact ⟨round (q * 100), h.symm⟩
  · rintro ⟨n, rfl⟩
    exact round2_intDiv n

theorem TwoDec.sub {a b : ℚ} (ha : TwoDec a) (hb : TwoDec b) :
    TwoDec (a - b) := by
  rw [twoDec_iff] at ha hb ⊢
  obtain ⟨m, rfl⟩ := ha
  obtain ⟨n, rfl⟩ := hb
  exact ⟨m - n, by push_cast; ring⟩

/-! ### Basic lemmas about the date order -/

theorem dateLe_iff (a b : Date) : dateLe a b = true ↔
    (a.year < b.year ∨ (a.year = b.year ∧
      (a.month < b.month ∨ (a.month = b.month ∧ a.day ≤ b.day)))) := by
  simp [dateLe]

theorem dateLe_refl (a : Date) : dateLe a a = true := by
  simp [dateLe_iff]

theorem dateLe_trans {a b c : Date} (hab : dateLe a b = true)
    (hbc : dateLe b c = true) : dateLe a c = true := by
  rw [dateLe_iff] at hab hbc ⊢
  omega

theorem dateLe_total (a b : Date) : dateLe a b = true ∨ dateLe b a = true := by
  rw [dateLe_iff, dateLe_iff]
  omega

theorem monthIndex_mono {a b : Date} (h : dateLe a b = true)
    (ha : ValidDate a) (hb : ValidDate b) : monthIndex a ≤ monthIndex b := by
  rw [dateLe_iff] at h
  obtain ⟨ha1, ha2⟩ := ha
  obtain ⟨hb1, hb2⟩ := hb
  unfold monthIndex
  omega

/-! ### The fold computing the minimum / maximum date -/

theorem minD_cons (d b : Date) (ds : List Date) :
    minD d (b :: ds) = minD (if dateLe b d then b else d) ds := rfl

theorem maxD_cons (d b : Date) (ds : List Date) :
    maxD d (b :: ds) = maxD (if dateLe d b then b else d) ds := rfl

theorem minD_mem (d : Date) (ds : List Date) : minD d ds ∈ d :: ds := by
  induction ds generalizing d with
  | nil => simp [minD]
  | cons b ds ih =>
    rw [minD_cons]
    have h := ih (if dateLe b d then b else d)
    rcases List.mem_cons.mp h with h | h
    · rw [h]
      split
      · simp
      · simp
    · exact List.mem_cons_of_mem _ (List.mem_cons_of_mem _ h)

theorem minD_le (d : Date) (ds : List Date) :
    ∀ x ∈ d :: ds, dateLe (minD d ds) x = true := by
  induction ds generalizing d with
  | nil =>
    intro x hx
    have hxd : x = d := List.mem_singleton.mp hx
    subst hxd
    simpa [minD] using dateLe_refl x
  | cons b ds ih =>
    intro x hx
    rw [minD_cons]
    have hseed : dateLe (if dateLe b d then b else d) d = true ∧
        dateLe (if dateLe b d then b else d) b = true := by
      by_cases hbd : dateLe b d = true
      · simp [hbd, dateLe_refl]
      · have := (dateLe_total b d).resolve_left hbd
        simp [hbd, this, dateLe_refl]
    have hmin := ih (if dateLe b d then b else d)
    have hself : dateLe (minD (if dateLe b d then b else d) ds)
        (if dateLe b d then b else d) = true := hmin _ (List.mem_cons_self _ _)
    rcases List.mem_cons.mp hx with rfl | h
    · exact dateLe_trans hself hseed.1
    · rcases List.mem_cons.mp h with rfl | h
      · exact dateLe_trans hself hseed.2
      · exact hmin x (List.mem_cons_of_mem _ h)

theorem maxD_mem (d : Date) (ds : List Date) : maxD d ds ∈ d :: ds := by
  induction ds generalizing d with
  | nil => simp [maxD]
  | cons b ds ih =>
    rw [maxD_cons]
    have h := ih (if dateLe d b then b else d)
    rcases List.mem_cons.mp h with h | h
    · rw [h]
      split
      · simp
      · simp
    · exact List.mem_cons_of_mem _ (List.mem_cons_of_mem _ h)

theorem le_maxD (d : Date) (ds : List Date) :
    ∀ x ∈ d :: ds, dateLe x (maxD d ds) = true := by
  induction ds generalizing d with
  | nil =>
    intro x hx
    have hxd : x = d := List.mem_singleton.mp hx
    subst hxd
    simpa [maxD] using dateLe_refl x
  | cons b ds ih =>
    intro x hx
    rw [maxD_cons]
    have hseed : dateLe d (if dateLe d b then b else d) = true ∧
        dateLe b (if dateLe d b then b else d) = true := by
      by_cases hdb : dateLe d b = true
      · simp [hdb, dateLe_refl]
      · have := (dateLe_total d b).resolve_left hdb
        simp [hdb, this, dateLe_refl]
    have hmax := ih (if dateLe d b then b else d)
    have hself : dateLe (if dateLe d b then b else d)
        (maxD (if dateLe d b then b else d) ds) = true :=
      hmax _ (List.mem_cons_self _ _)
    rcases List.mem_cons.mp hx with rfl | h
    · exact dateLe_trans hseed.1 hself
    · rcases List.mem_cons.mp h with rfl | h
      · exact dateLe_trans hseed.2 hself
      · exact hmax x (List.mem_cons_of_mem _ h)

theorem minDateOf_mem (t : Transaction) (ts : List Transaction) :
    minDateOf (t :: ts) ∈ (t :: ts).map (fun u => u.date) := by
  simpa [minDateOf, List.map_cons] using
    minD_mem t.date (ts.map (fun u => u.date))

theorem minDateOf_le (t : Transaction) (ts : List Transaction) :
    ∀ u ∈ t :: ts, dateLe (minDateOf (t :: ts)) u.date = true := by
  intro u hu
  apply minD_le
  rcases List.mem_cons.mp hu with rfl | h
  · exact List.mem_cons_self _ _
  · exact List.mem_cons_of_mem _ (List.mem_map_of_mem _ h)

theorem maxDateOf_mem (t : Transaction) (ts : List Transaction) :
    maxDateOf (t :: ts) ∈ (t :: ts).map (fun u => u.date) := by
  simpa [maxDateOf, List.map_cons] using
    maxD_mem t.date (ts.map (fun u => u.date))

theorem le_maxDateOf (t : Transaction) (ts : List Transaction) :
    ∀ u ∈ t :: ts, dateLe u.date (maxDateOf (t :: ts)) = true := by
  intro u hu
  apply le_maxD
  rcases List.mem_cons.mp hu with rfl | h
  · exact List.mem_cons_self _ _
  · exact List.mem_cons_of_mem _ (List.mem_map_of_mem _ h)

/-! ### Category spending: supporting lemmas -/

/-- Sum of abs(amount) over the expense records of one category, phrased
directly over the whole collection. -/
def catExpenseAbs (txns : List Transaction) (c : String) : ℚ :=
  ((txns.filter (fun t =>
      t.type == TransactionType.expense && t.category == c)).map
    (fun t => |t.amount|)).sum

theorem catAbsSum_filter (txns : List Transaction) (c : String) :
    catAbsSum (txns.filter (fun t => t.type == TransactionType.expense)) c =
      catExpenseAbs txns c := by
  unfold catAbsSum catExpenseAbs
  rw [List.filter_filter]
  have hp : (fun (a : Transaction) =>
      a.category == c && a.type == TransactionType.expense) =
      (fun t => t.type == TransactionType.expense && t.category == c) := by
    funext a
    rw [Bool.and_comm]
  rw [hp]

theorem analyze_spending_keys (txns : List Transaction) :
    (analyze_spending txns).map Prod.fst =
      ((txns.filter (fun t => t.type == TransactionType.expense)).map
        (fun t => t.category)).dedup := by
  unfold analyze_spending
  by_cases h : txns.isEmpty
  · rw [if_pos h]
    rw [List.isEmpty_iff] at h
    subst h
    simp
  · rw [if_neg h]
    rw [List.map_map]
    exact List.map_id _

theorem analyze_spending_values (txns : List Transaction) :
    ∀ p ∈ analyze_spending txns, p.2 = catExpenseAbs txns p.1 := by
  intro p hp
  unfold analyze_spending at hp
  by_cases h : txns.isEmpty
  · rw [if_pos h] at hp
    exact absurd hp (List.not_mem_nil p)
  · rw [if_neg h] at hp
    obtain ⟨c, _, rfl⟩ := List.mem_map.mp hp
    exact catAbsSum_filter txns c

/-- C1: for every collection of transaction records, `analyze_spending`
returns a mapping whose keys are exactly the categories having at least
one expense record (each key occurring once), whose value at each key is
the sum of abs(amount) over that category's expense records; the mapping
is empty when the collection is empty or contains no expense records, so
categories with no expense records never appear. -/
theorem claim_C1_category_spending (txns : List Transaction) :
    ((analyze_spending txns).map Prod.fst).Nodup
    ∧ (∀ c : String, c ∈ (analyze_spending txns).map Prod.fst ↔
        ∃ t ∈ txns, t.type = TransactionType.expense ∧ t.category = c)
    ∧ (∀ p ∈ analyze_spending txns, p.2 = catExpenseAbs txns p.1)
    ∧ analyze_spending ([] : List Transaction) = []
    ∧ ((∀ t ∈ txns, t.type ≠ TransactionType.expense) →
        analyze_spending txns = []) := by
  refine ⟨?_, ?_, analyze_spending_values txns, rfl, ?_⟩
  · rw [analyze_spending_keys]
    exact List.nodup_dedup _
  · intro c
    rw [analyze_spending_keys, List.mem_dedup, List.mem_map]
    constructor
    · rintro ⟨t, ht, rfl⟩
      have h := List.mem_filter.mp ht
      exact ⟨t, h.1, by simpa using h.2, rfl⟩
    · rintro ⟨t, ht, hty, rfl⟩
      exact ⟨t, List.mem_filter.mpr ⟨ht, by simp [hty]⟩, rfl⟩
  · intro h
    have hfe : txns.filter (fun t => t.type == TransactionType.expense) = [] := by
      rw [List.filter_eq_nil_iff]
      intro t ht
      simpa using h t ht
    unfold analyze_spending
    split
    · rfl
    · rw [hfe]
      simp

/-- Concrete single-expense collection used to witness C1. -/
def exC1 : List Transaction :=
  [⟨⟨2024, 1, 15⟩, "Food", -30, TransactionType.expense, ""⟩]

/-- Witness for C1 at a concrete collection: Food appears among the keys. -/
theorem claim_C1_witness : "Food" ∈ (analyze_spending exC1).map Prod.fst :=
  ((claim_C1_category_spending exC1).2.1 "Food").mpr
    ⟨⟨⟨2024, 1, 15⟩, "Food", -30, TransactionType.expense, ""⟩,
      by simp [exC1], rfl, rfl⟩

/-! ### Monthly breakdown: supporting lemmas -/

theorem monthEntry_month (txns : List Transaction) (m : Nat) :
    (monthEntry txns m).month = m := rfl

theorem monthEntry_income (txns : List Transaction) (m : Nat) :
    (monthEntry txns m).income = round2 (monthlyIncome txns m) := rfl

theorem monthEntry_expenses (txns : List Transaction) (m : Nat) :
    (monthEntry txns m).expenses = round2 (monthlyExpenses txns m) := rfl

theorem monthlyIncome_of_no_txn (txns : List Transaction) (m : Nat)
    (h : ∀ u ∈ txns, monthIndex u.date ≠ m) : monthlyIncome txns m = 0 := by
  unfold monthlyIncome
  have hf : txns.filter (fun t =>
      t.type == TransactionType.income && monthIndex t.date == m) = [] := by
    rw [List.filter_eq_nil_iff]
    intro t ht
    simp [h t ht]
  rw [hf]
  simp

theorem monthlyExpenses_of_no_txn (txns : List Transaction) (m : Nat)
    (h : ∀ u ∈ txns, monthIndex u.date ≠ m) : monthlyExpenses txns m = 0 := by
  unfold monthlyExpenses
  have hf : txns.filter (fun t =>
      t.type == TransactionType.expense && monthIndex t.date == m) = [] := by
    rw [List.filter_eq_nil_iff]
    intro t ht
    simp [h t ht]
  rw [hf]
  simp

theorem analyze_monthly_cons (t : Transaction) (ts : List Transaction) :
    analyze_monthly (t :: ts) =
      (List.range (monthIndex (maxDateOf (t :: ts)) + 1 -
          monthIndex (minDateOf (t :: ts)))).map
        (fun i => monthEntry (t :: ts) (monthIndex (minDateOf (t :: ts)) + i)) := by
  unfold analyze_monthly
  rw [if_neg (by simp)]

/-- C2: the monthly breakdown of a non-empty collection is an ascending
sequence with exactly one entry per calendar month from the month of the
earliest record's date to the month of the latest record's date
inclusive (its months form the contiguous range `range' m0 (m1-m0+1)`),
its length is that inclusive month count, months with no transactions
appear with income 0 and expenses 0, and the empty collection yields the
empty sequence. -/
theorem claim_C2_monthly_gap_fill (txns : List Transaction)
    (hne : txns ≠ []) (hval : ∀ u ∈ txns, ValidDate u.date) :
    minDateOf txns ∈ txns.map (fun u => u.date)
    ∧ (∀ u ∈ txns, dateLe (minDateOf txns) u.date = true)
    ∧ maxDateOf txns ∈ txns.map (fun u => u.date)
    ∧ (∀ u ∈ txns, dateLe u.date (maxDateOf txns) = true)
    ∧ monthIndex (minDateOf txns) ≤ monthIndex (maxDateOf txns)
    ∧ (analyze_monthly txns).map MonthlyEntry.month =
        List.range' (monthIndex (minDateOf txns))
          (monthIndex (maxDateOf txns) - monthIndex (minDateOf txns) + 1)
    ∧ (analyze_monthly txns).length =
        monthIndex (maxDateOf txns) - monthIndex (minDateOf txns) + 1
    ∧ (∀ e ∈ analyze_monthly txns,
        (∀ u ∈ txns, monthIndex u.date ≠ e.month) →
          e.income = 0 ∧ e.expenses = 0)
    ∧ analyze_monthly ([] : List Transaction) = [] := by
  obtain ⟨t, ts, rfl⟩ := List.exists_cons_of_ne_nil hne
  obtain ⟨umin, hminmem, hmindate⟩ :=
    List.mem_map.mp (minDateOf_mem t ts)
  obtain ⟨umax, hmaxmem, hmaxdate⟩ :=
    List.mem_map.mp (maxDateOf_mem t ts)
  have hminval : ValidDate (minDateOf (t :: ts)) :=
    hmindate ▸ hval umin hminmem
  have hmaxval : ValidDate (maxDateOf (t :: ts)) :=
    hmaxdate ▸ hval umax hmaxmem
  have hminmax : dateLe (minDateOf (t :: ts)) (maxDateOf (t :: ts)) = true := by
    have := minDateOf_le t ts umax hmaxmem
    rwa [hmaxdate] at this
  have hm01 : monthIndex (minDateOf (t :: ts)) ≤
      monthIndex (maxDateOf (t :: ts)) :=
    monthIndex_mono hminmax hminval hmaxval
  have hcount : monthIndex (maxDateOf (t :: ts)) + 1 -
      monthIndex (minDateOf (t :: ts)) =
      monthIndex (maxDateOf (t :: ts)) -
        monthIndex (minDateOf (t :: ts)) + 1 := by omega
  refine ⟨minDateOf_mem t ts, minDateOf_le t ts, maxDateOf_mem t ts,
    le_maxDateOf t ts, hm01, ?_, ?_, ?_, rfl⟩
  · rw [analyze_monthly_cons, List.map_map, hcount, List.range'_eq_map_range]
    rfl
  · rw [analyze_monthly_cons, List.length_map, List.length_range, hcount]
  · intro e he hnm
    rw [analyze_monthly_cons] at he
    obtain ⟨i, _, rfl⟩ := List.mem_map.mp he
    rw [monthEntry_month] at hnm
    rw [monthEntry_income, monthEntry_expenses,
      monthlyIncome_of_no_txn _ _ hnm, monthlyExpenses_of_no_txn _ _ hnm,
      round2_zero]
    exact ⟨rfl, rfl⟩

/-- Concrete two-month collection used to witness C2. -/
def exC2 : List Transaction :=
  [⟨⟨2024, 1, 15⟩, "Food", -30, TransactionType.expense, ""⟩,
   ⟨⟨2024, 3, 10⟩, "Food", 20, TransactionType.expense, ""⟩]

/-- Witness for C2 at a concrete collection spanning January to March
2024: the breakdown has exactly 3 entries. -/
theorem claim_C2_witness : (analyze_monthly exC2).length = 3 := by
  have h := claim_C2_monthly_gap_fill exC2 (by simp [exC2]) (by decide)
  have hlen := h.2.2.2.2.2.2.1
  rw [hlen]
  rfl

/-! ### Field computations of the comparison and monthly entries -/

theorem monthEntry_savings_rate (txns : List Transaction) (m : Nat) :
    (monthEntry txns m).savings_rate =
      round2 (if 0 < monthlyIncome txns m then
        (monthlyIncome txns m - monthlyExpenses txns m) /
          monthlyIncome txns m * 100 else 0) := rfl

theorem mem_analyze_monthly {txns : List Transaction} {e : MonthlyEntry}
    (he : e ∈ analyze_monthly txns) : e = monthEntry txns e.month := by
  unfold analyze_monthly at he
  split at he
  · exact absurd he (List.not_mem_nil e)
  · obtain ⟨i, _, rfl⟩ := List.mem_map.mp he
    rfl

theorem cp_period1_income (txns : List Transaction) (a b c d : Date) :
    (compare_periods txns a b c d).period1.income =
      round2 (periodIncome txns a b) := rfl

theorem cp_period1_expenses (txns : List Transaction) (a b c d : Date) :
    (compare_periods txns a b c d).period1.expenses =
      round2 (periodExpenses txns a b) := rfl

theorem cp_period2_income (txns : List Transaction) (a b c d : Date) :
    (compare_periods txns a b c d).period2.income =
      round2 (periodIncome txns c d) := rfl

theorem cp_period2_expenses (txns : List Transaction) (a b c d : Date) :
    (compare_periods txns a b c d).period2.expenses =
      round2 (periodExpenses txns c d) := rfl

theorem cp_income_change (txns : List Transaction) (a b c d : Date) :
    (compare_periods txns a b c d).changes.income_change =
      round2 (periodIncome txns c d - periodIncome txns a b) := rfl

theorem cp_expense_change (txns : List Transaction) (a b c d : Date) :
    (compare_periods txns a b c d).changes.expense_change =
      round2 (periodExpenses txns c d - periodExpenses txns a b) := rfl

theorem cp_income_change_pct (txns : List Transaction) (a b c d : Date) :
    (compare_periods txns a b c d).changes.income_change_pct =
      round2 (if 0 < periodIncome txns a b then
        (periodIncome txns c d - periodIncome txns a b) /
          periodIncome txns a b * 100 else 0) := rfl

theorem cp_expense_change_pct (txns : List Transaction) (a b c d : Date) :
    (compare_periods txns a b c d).changes.expense_change_pct =
      round2 (if 0 < periodExpenses txns a b then
        (periodExpenses txns c d - periodExpenses txns a b) /
          periodExpenses txns a b * 100 else 0) := rfl

theorem get_analysis_ok {allTxns : List Transaction} {s e : Option Date}
    {p : AnalysisPayload} (h : get_analysis allTxns s e = ApiResult.ok p) :
    p.summary.savings_rate =
      round2 (if 0 < incomeSum (filterByDate allTxns s e) then
        (incomeSum (filterByDate allTxns s e) -
          expenseAbsSum (filterByDate allTxns s e)) /
            incomeSum (filterByDate allTxns s e) * 100 else 0) := by
  unfold get_analysis analysisOf at h
  split at h
  · exact absurd h (by simp)
  · injection h with h
    subst h
    rfl

/-- C3: everywhere a rate is derived from a baseline — the monthly
savings_rate, the summary savings_rate, and the comparison
income_change_pct / expense_change_pct — a zero baseline yields exactly
0; when the baseline income is positive the monthly and summary
savings_rate equal savings / income * 100 (rounded). -/
theorem claim_C3_zero_guard :
    (∀ (txns : List Transaction), ∀ e ∈ analyze_monthly txns,
      (monthlyIncome txns e.month = 0 → e.savings_rate = 0)
      ∧ (0 < monthlyIncome txns e.month →
          e.savings_rate = round2 ((monthlyIncome txns e.month -
            monthlyExpenses txns e.month) / monthlyIncome txns e.month * 100)))
    ∧ (∀ (allTxns : List Transaction) (s e : Option Date) (p : AnalysisPayload),
        get_analysis allTxns s e = ApiResult.ok p →
        (incomeSum (filterByDate allTxns s e) = 0 →
          p.summary.savings_rate = 0)
        ∧ (0 < incomeSum (filterByDate allTxns s e) →
          p.summary.savings_rate =
            round2 ((incomeSum (filterByDate allTxns s e) -
              expenseAbsSum (filterByDate allTxns s e)) /
                incomeSum (filterByDate allTxns s e) * 100)))
    ∧ (∀ (allTxns : List Transaction) (a b c d : Date),
        (periodIncome allTxns a b = 0 →
          (compare_periods allTxns a b c d).changes.income_change_pct = 0)
        ∧ (periodExpenses allTxns a b = 0 →
          (compare_periods allTxns a b c d).changes.expense_change_pct = 0)) := by
  refine ⟨?_, ?_, ?_⟩
  · intro txns e he
    rw [mem_analyze_monthly he, monthEntry_month, monthEntry_savings_rate]
    constructor
    · intro h
      rw [h, if_neg (lt_irrefl 0), round2_zero]
    · intro h
      rw [if_pos h]
  · intro allTxns s e p h
    rw [get_analysis_ok h]
    constructor
    · intro hz
      rw [hz, if_neg (lt_irrefl 0), round2_zero]
    · intro hp
      rw [if_pos hp]
  · intro allTxns a b c d
    constructor
    · intro h
      rw [cp_income_change_pct, h, if_neg (lt_irrefl 0), round2_zero]
    · intro h
      rw [cp_expense_change_pct, h, if_neg (lt_irrefl 0), round2_zero]

/-- Concrete expense-only collection used to witness C3. -/
def exC3 : List Transaction :=
  [⟨⟨2024, 1, 15⟩, "Food", -30, TransactionType.expense, ""⟩]

/-- Witness for C3 at a concrete collection with zero income: the only
monthly entry has savings_rate 0, and a comparison whose period 1 has
zero income has income_change_pct 0. -/
theorem claim_C3_witness :
    (monthEntry exC3 (24288 + 0)).savings_rate = 0
    ∧ (compare_periods exC3 ⟨2024, 1, 1⟩ ⟨2024, 1, 31⟩ ⟨2024, 2, 1⟩
        ⟨2024, 2, 28⟩).changes.income_change_pct = 0 := by
  constructor
  · exact (claim_C3_zero_guard.1 exC3 (monthEntry exC3 (24288 + 0))
      (List.mem_singleton_self _)).1 rfl
  · exact (claim_C3_zero_guard.2.2 exC3 ⟨2024, 1, 1⟩ ⟨2024, 1, 31⟩ ⟨2024, 2, 1⟩
      ⟨2024, 2, 28⟩).1 rfl

/-- C5: when the (optionally date-filtered) collection is empty, the
summary/analysis and monthly-breakdown endpoints return the distinct
"no data" 404 signal — an `ApiResult` constructor different from a
zero-filled `ok` payload and from the generic 500 `serverError` used for
computation failures. -/
theorem claim_C5_empty_dataset (allTxns : List Transaction)
    (s e : Option Date) (h : filterByDate allTxns s e = []) :
    get_analysis allTxns s e = ApiResult.notFound "No transactions found"
    ∧ get_monthly_analysis allTxns s e =
        ApiResult.notFound "No transactions found"
    ∧ (∀ p : AnalysisPayload,
        (ApiResult.notFound "No transactions found" : ApiResult AnalysisPayload)
          ≠ ApiResult.ok p)
    ∧ (∀ msg : String,
        (ApiResult.notFound "No transactions found" : ApiResult AnalysisPayload)
          ≠ ApiResult.serverError msg)
    ∧ (∀ ml : List MonthlyEntry,
        (ApiResult.notFound "No transactions found" :
          ApiResult (List MonthlyEntry)) ≠ ApiResult.ok ml) := by
  refine ⟨?_, ?_, ?_, ?_, ?_⟩
  · unfold get_analysis analysisOf
    rw [h]
    rfl
  · unfold get_monthly_analysis monthlyOf
    rw [h]
    rfl
  · intro p hc
    cases hc
  · intro msg hc
    cases hc
  · intro ml hc
    cases hc

/-- Witness for C5 at the concrete empty store: both endpoints signal
"no data". -/
theorem claim_C5_witness :
    get_analysis [] none none = ApiResult.notFound "No transactions found"
    ∧ get_monthly_analysis [] none none =
        ApiResult.notFound "No transactions found" :=
  ⟨(claim_C5_empty_dataset [] none none rfl).1,
   (claim_C5_empty_dataset [] none none rfl).2.1⟩

theorem periodIncome_of_empty {allTxns : List Transaction} {a b : Date}
    (h : filterByDate allTxns (some a) (some b) = []) :
    periodIncome allTxns a b = 0 := by
  unfold periodIncome
  rw [h]
  rfl

theorem periodExpenses_of_empty {allTxns : List Transaction} {a b : Date}
    (h : filterByDate allTxns (some a) (some b) = []) :
    periodExpenses allTxns a b = 0 := by
  unfold periodExpenses
  rw [h]
  rfl

/-- C6: for every pair of date ranges the comparison is total: an empty
period contributes income 0 and expenses 0, the reported changes are the
rounded signed differences `income2 - income1` and `expenses2 -
expenses1`, each percentage is guarded to 0 on a zero period-1 baseline,
and when the period totals are exact 2-decimal values the reported
income change equals the reported period incomes' difference exactly. -/
theorem claim_C6_comparison (allTxns : List Transaction) (a b c d : Date) :
    (compare_periods allTxns a b c d).changes.income_change =
        round2 (periodIncome allTxns c d - periodIncome allTxns a b)
    ∧ (compare_periods allTxns a b c d).changes.expense_change =
        round2 (periodExpenses allTxns c d - periodExpenses allTxns a b)
    ∧ (filterByDate allTxns (some a) (some b) = [] →
        periodIncome allTxns a b = 0 ∧ periodExpenses allTxns a b = 0
        ∧ (compare_periods allTxns a b c d).period1.income = 0
        ∧ (compare_periods allTxns a b c d).period1.expenses = 0)
    ∧ (filterByDate allTxns (some c) (some d) = [] →
        (compare_periods allTxns a b c d).period2.income = 0
        ∧ (compare_periods allTxns a b c d).period2.expenses = 0)
    ∧ (periodIncome allTxns a b = 0 →
        (compare_periods allTxns a b c d).changes.income_change_pct = 0)
    ∧ (periodExpenses allTxns a b = 0 →
        (compare_periods allTxns a b c d).changes.expense_change_pct = 0)
    ∧ (TwoDec (periodIncome allTxns a b) →
        TwoDec (periodIncome allTxns c d) →
        (compare_periods allTxns a b c d).changes.income_change =
          (compare_periods allTxns a b c d).period2.income -
            (compare_periods allTxns a b c d).period1.income) := by
  refine ⟨cp_income_change allTxns a b c d, cp_expense_change allTxns a b c d,
    ?_, ?_, ?_, ?_, ?_⟩
  · intro h
    have h1 := periodIncome_of_empty h
    have h2 := periodExpenses_of_empty h
    exact ⟨h1, h2, by rw [cp_period1_income, h1, round2_zero],
      by rw [cp_period1_expenses, h2, round2_zero]⟩
  · intro h
    exact ⟨by rw [cp_period2_income, periodIncome_of_empty h, round2_zero],
      by rw [cp_period2_expenses, periodExpenses_of_empty h, round2_zero]⟩
  · intro h
    rw [cp_income_change_pct, h, if_neg (lt_irrefl 0), round2_zero]
  · intro h
    rw [cp_expense_change_pct, h, if_neg (lt_irrefl 0), round2_zero]
  · intro h1 h2
    rw [cp_income_change, cp_period1_income, cp_period2_income, h1, h2,
      (h2.sub h1)]

/-- Concrete store used to witness C6: one 500 income record in February
2024, nothing in January (the spec's period-1 income 0, period-2 income
500 scenario). -/
def exC6 : List Transaction :=
  [⟨⟨2024, 2, 10⟩, "Salary", 500, TransactionType.income, ""⟩]

/-- Witness for C6 at the spec's concrete scenario: income_change_pct
is guarded to 0 and income_change is 500. -/
theorem claim_C6_witness :
    (compare_periods exC6 ⟨2024, 1, 1⟩ ⟨2024, 1, 31⟩ ⟨2024, 2, 1⟩
        ⟨2024, 2, 28⟩).changes.income_change_pct = 0
    ∧ (compare_periods exC6 ⟨2024, 1, 1⟩ ⟨2024, 1, 31⟩ ⟨2024, 2, 1⟩
        ⟨2024, 2, 28⟩).changes.income_change = 500 := by
  have h := claim_C6_comparison exC6 ⟨2024, 1, 1⟩ ⟨2024, 1, 31⟩ ⟨2024, 2, 1⟩
    ⟨2024, 2, 28⟩
  refine ⟨h.2.2.2.2.1 rfl, ?_⟩
  rw [h.1]
  have hp1 : periodIncome exC6 ⟨2024, 1, 1⟩ ⟨2024, 1, 31⟩ = 0 := rfl
  have hp2 : periodIncome exC6 ⟨2024, 2, 1⟩ ⟨2024, 2, 28⟩ = 500 := by
    norm_num [periodIncome, filterByDate, dateLe, incomeSum, exC6]
  rw [hp1, hp2]
  norm_num [round2, round_eq]

/-- C10: the comparison's percentage guard is strict — whenever period
1's income total is non-positive (in particular negative, which is
reachable since negative-signed income records are summed as stored),
income_change_pct is 0 while income_change is still the rounded true
signed difference. -/
theorem claim_C10_strict_guard (allTxns : List Transaction) (a b c d : Date)
    (h : periodIncome allTxns a b ≤ 0) :
    (compare_periods allTxns a b c d).changes.income_change_pct = 0
    ∧ (compare_periods allTxns a b c d).changes.income_change =
        round2 (periodIncome allTxns c d - periodIncome allTxns a b) := by
  refine ⟨?_, cp_income_change allTxns a b c d⟩
  rw [cp_income_change_pct, if_neg (not_lt.mpr h), round2_zero]

/-- Concrete store used to witness C10: a single negative-signed income
record of -100 in January 2024. -/
def exC10 : List Transaction :=
  [⟨⟨2024, 1, 10⟩, "Refund", -100, TransactionType.income, ""⟩]

/-- Witness for C10: period-1 income is -100 (negative baseline), the
percentage is guarded to 0, and the signed change is reported. -/
theorem claim_C10_witness :
    periodIncome exC10 ⟨2024, 1, 1⟩ ⟨2024, 1, 31⟩ = -100
    ∧ (compare_periods exC10 ⟨2024, 1, 1⟩ ⟨2024, 1, 31⟩ ⟨2024, 2, 1⟩
        ⟨2024, 2, 28⟩).changes.income_change_pct = 0
    ∧ (compare_periods exC10 ⟨2024, 1, 1⟩ ⟨2024, 1, 31⟩ ⟨2024, 2, 1⟩
        ⟨2024, 2, 28⟩).changes.income_change = 100 := by
  have hneg : periodIncome exC10 ⟨2024, 1, 1⟩ ⟨2024, 1, 31⟩ = -100 := by
    norm_num [periodIncome, filterByDate, dateLe, incomeSum, exC10]
  have h := claim_C10_strict_guard exC10 ⟨2024, 1, 1⟩ ⟨2024, 1, 31⟩
    ⟨2024, 2, 1⟩ ⟨2024, 2, 28⟩ (by rw [hneg]; norm_num)
  refine ⟨hneg, h.1, ?_⟩
  rw [h.2, hneg]
  have hp2 : periodIncome exC10 ⟨2024, 2, 1⟩ ⟨2024, 2, 28⟩ = 0 := rfl
  rw [hp2]
  norm_num [round2, round_eq]

/-! ### Global stats: the raw-sum expense convention -/

theorem get_stats_total_expenses (txns : List Transaction) :
    (get_stats txns).total_expenses = round2 |expenseRawSum txns| := rfl

theorem get_stats_net_savings (txns : List Transaction) :
    (get_stats txns).net_savings =
      round2 (incomeSum txns + expenseRawSum txns) := rfl

theorem get_stats_total_income (txns : List Transaction) :
    (get_stats txns).total_income = round2 (incomeSum txns) := rfl

theorem sum_neg_of_all_nonpos (l : List Transaction)
    (h : ∀ t ∈ l, t.amount ≤ 0) :
    (l.map (fun t => t.amount)).sum = -((l.map (fun t => |t.amount|)).sum) := by
  induction l with
  | nil => simp
  | cons a l ih =>
    have ha := h a (List.mem_cons_self a l)
    have hl := ih (fun t ht => h t (List.mem_cons_of_mem a ht))
    simp only [List.map_cons, List.sum_cons, hl, abs_of_nonpos ha]
    ring

theorem expenseRawSum_of_nonpos (txns : List Transaction)
    (h : ∀ t ∈ txns, t.type = TransactionType.expense → t.amount ≤ 0) :
    expenseRawSum txns = -(expenseAbsSum txns) := by
  unfold expenseRawSum expenseAbsSum
  apply sum_neg_of_all_nonpos
  intro t ht
  have hm := List.mem_filter.mp ht
  exact h t hm.1 (by simpa using hm.2)

theorem expenseAbsSum_nonneg (txns : List Transaction) :
    0 ≤ expenseAbsSum txns := by
  unfold expenseAbsSum
  apply List.sum_nonneg
  intro q hq
  obtain ⟨t, _, rfl⟩ := List.mem_map.mp hq
  exact abs_nonneg _

/-- Concrete store refuting C7: income 100 and expense records of
amounts 50 and -30 stored with mixed signs. -/
def exC7 : List Transaction :=
  [⟨⟨2024, 1, 1⟩, "Salary", 100, TransactionType.income, ""⟩,
   ⟨⟨2024, 1, 2⟩, "Food", 50, TransactionType.expense, ""⟩,
   ⟨⟨2024, 1, 3⟩, "Rent", -30, TransactionType.expense, ""⟩]

/-- C7 counterexample: on `exC7` the stats view reports total_expenses
20 (abs of the raw sum 50 + (-30)), not the per-record absolute total
80, and net_savings 120 (income plus raw expense sum), not income minus
the absolute total (which would be 20). -/
theorem claim_C7_counterexample :
    (get_stats exC7).total_expenses = 20
    ∧ expenseAbsSum exC7 = 80
    ∧ (get_stats exC7).total_expenses ≠ expenseAbsSum exC7
    ∧ (get_stats exC7).net_savings = 120
    ∧ incomeSum exC7 = 100
    ∧ (get_stats exC7).net_savings ≠ incomeSum exC7 - expenseAbsSum exC7 := by
  have h1 : expenseRawSum exC7 = 20 := by
    norm_num +decide [expenseRawSum, exC7]
  have h2 : expenseAbsSum exC7 = 80 := by
    norm_num +decide [expenseAbsSum, exC7]
  have h3 : incomeSum exC7 = 100 := by
    norm_num +decide [incomeSum, exC7]
  have h4 : (get_stats exC7).total_expenses = 20 := by
    rw [get_stats_total_expenses, h1]
    norm_num [round2, round_eq]
  have h5 : (get_stats exC7).net_savings = 120 := by
    rw [get_stats_net_savings, h1, h3]
    norm_num [round2, round_eq]
  refine ⟨h4, h2, ?_, h5, h3, ?_⟩
  · rw [h4, h2]
    norm_num
  · rw [h5, h3, h2]
    norm_num

/-- C7 amended: the global stats view reports total_expenses as the
absolute value of the raw signed expense sum (not a per-record absolute
sum) and net_savings as total_income plus that raw signed sum; the two
conventions coincide exactly when every expense record is stored with a
non-positive amount, in which case total_expenses is the per-record
absolute total and net_savings is income minus it. -/
theorem claim_C7_amended (txns : List Transaction) :
    (get_stats txns).total_expenses = round2 |expenseRawSum txns|
    ∧ (get_stats txns).net_savings =
        round2 (incomeSum txns + expenseRawSum txns)
    ∧ (get_stats txns).total_income = round2 (incomeSum txns)
    ∧ (get_stats txns).total_transactions = txns.length
    ∧ ((∀ t ∈ txns, t.type = TransactionType.expense → t.amount ≤ 0) →
        (get_stats txns).total_expenses = round2 (expenseAbsSum txns)
        ∧ (get_stats txns).net_savings =
            round2 (incomeSum txns - expenseAbsSum txns)) := by
  refine ⟨rfl, rfl, rfl, rfl, ?_⟩
  intro h
  have hraw := expenseRawSum_of_nonpos txns h
  constructor
  · rw [get_stats_total_expenses, hraw, abs_neg,
      abs_of_nonneg (expenseAbsSum_nonneg txns)]
  · rw [get_stats_net_savings, hraw]
    ring_nf

/-- Concrete store used to witness the amended C7: a single expense
stored with a negative amount. -/
def exC7w : List Transaction :=
  [⟨⟨2024, 1, 2⟩, "Food", -30, TransactionType.expense, ""⟩]

/-- Witness for the amended C7: with all expense amounts non-positive
the net savings is income minus the absolute expense total. -/
theorem claim_C7_witness : (get_stats exC7w).net_savings = -30 := by
  have h := (claim_C7_amended exC7w).2.2.2.2 (by
    intro t ht hty
    rcases List.mem_cons.mp ht with rfl | hc
    · norm_num
    · exact absurd hc (List.not_mem_nil t))
  rw [h.2]
  have h1 : incomeSum exC7w = 0 := rfl
  have h2 : expenseAbsSum exC7w = 30 := by
    norm_num +decide [expenseAbsSum, exC7w]
  rw [h1, h2]
  norm_num [round2, round_eq]

/-! ### The transaction-construction boundary -/

/-- C8 counterexample: a `type` value outside {income, expense} is not
rejected at the construction boundary — `create_transaction` accepts
"banana" and silently stores the record as an expense, and the CSV row
loop maps the differently-cased "INCOME" to expense as well, so the
interpretation is case-sensitive, not case-insensitive. -/
theorem claim_C8_counterexample :
    create_transaction
        ⟨some ⟨2024, 1, 1⟩, some "Food", some 5, some "banana", none⟩ =
      ApiResult.ok ⟨⟨2024, 1, 1⟩, "Food", 5, TransactionType.expense, ""⟩
    ∧ "banana" ≠ "income" ∧ "banana" ≠ "expense"
    ∧ csv_row_to_transaction ⟨2024, 1, 1⟩ "Food" 5 "INCOME" none =
        ⟨⟨2024, 1, 1⟩, "Food", 5, TransactionType.expense, ""⟩
    ∧ "INCOME" ≠ "income" :=
  ⟨rfl, by decide, by decide, rfl, by decide⟩

/-- C8 amended: the construction boundary never rejects a `type` value:
both direct creation and the CSV import row loop compare the string
case-sensitively against the literal "income", map exactly "income" to
the income enum, and silently store every other string — including
differently-cased and entirely invalid values — as an expense. -/
theorem claim_C8_amended (d : Date) (c : String) (a : ℚ) (ty : String)
    (desc : Option String) :
    create_transaction ⟨some d, some c, some a, some ty, desc⟩ =
      ApiResult.ok ⟨d, c, a, parse_type ty, desc.getD ""⟩
    ∧ (ty = "income" → parse_type ty = TransactionType.income)
    ∧ (ty ≠ "income" → parse_type ty = TransactionType.expense)
    ∧ csv_row_to_transaction d c a ty desc =
        ⟨d, c, a, parse_type ty, desc.getD ""⟩ := by
  refine ⟨rfl, ?_, ?_, rfl⟩
  · intro h
    simp [parse_type, h]
  · intro h
    simp [parse_type, h]

/-- Witness for the amended C8: the differently-cased "Expense" is
stored as an expense rather than rejected. -/
theorem claim_C8_witness :
    parse_type "Expense" = TransactionType.expense :=
  (claim_C8_amended ⟨2024, 1, 1⟩ "Food" 5 "Expense" none).2.2.1 (by decide)

/-! ### Rounding coverage of the outputs -/

theorem cp_period1_savings (txns : List Transaction) (a b c d : Date) :
    (compare_periods txns a b c d).period1.savings =
      round2 (periodIncome txns a b - periodExpenses txns a b) := rfl

theorem cp_period2_savings (txns : List Transaction) (a b c d : Date) :
    (compare_periods txns a b c d).period2.savings =
      round2 (periodIncome txns c d - periodExpenses txns c d) := rfl

theorem get_analysis_ok_eq {allTxns : List Transaction} {s e : Option Date}
    {p : AnalysisPayload} (h : get_analysis allTxns s e = ApiResult.ok p) :
    p.summary.total_income = round2 (incomeSum (filterByDate allTxns s e))
    ∧ p.summary.total_expenses =
        round2 (expenseAbsSum (filterByDate allTxns s e))
    ∧ p.summary.total_savings =
        round2 (incomeSum (filterByDate allTxns s e) -
          expenseAbsSum (filterByDate allTxns s e))
    ∧ p.category_spending = analyze_spending (filterByDate allTxns s e) := by
  unfold get_analysis analysisOf at h
  split at h
  · exact absurd h (by simp)
  · injection h with h
    subst h
    exact ⟨rfl, rfl, rfl, rfl⟩

/-- Concrete store refuting C9: one expense of 10.554, whose category
total cannot be a 2-decimal value. -/
def exC9 : List Transaction :=
  [⟨⟨2024, 1, 1⟩, "Food", 10554/1000, TransactionType.expense, ""⟩]

/-- C9 counterexample: `analyze_spending` returns the category total
10.554 unrounded, a value that is not representable with 2 decimals —
so not every monetary output of the category-spending mapping is rounded
to 2 decimal places. -/
theorem claim_C9_counterexample :
    analyze_spending exC9 = [("Food", 10554/1000)]
    ∧ ¬ TwoDec ((10554 : ℚ)/1000) := by
  constructor
  · norm_num +decide [analyze_spending, catAbsSum, exC9, List.dedup_cons_of_not_mem]
  · unfold TwoDec round2
    norm_num [round_eq]

/-- C9 amended: every monetary value and rate in the monthly breakdown,
the summary totals, the period comparison and the global stats is
rounded to 2 decimal places, but the per-category values of the
category-spending mapping are returned as raw unrounded sums. -/
theorem claim_C9_amended :
    (∀ (txns : List Transaction), ∀ e ∈ analyze_monthly txns,
      TwoDec e.income ∧ TwoDec e.expenses ∧ TwoDec e.savings
      ∧ TwoDec e.savings_rate)
    ∧ (∀ (allTxns : List Transaction) (s eo : Option Date)
        (p : AnalysisPayload), get_analysis allTxns s eo = ApiResult.ok p →
        TwoDec p.summary.total_income ∧ TwoDec p.summary.total_expenses
        ∧ TwoDec p.summary.total_savings ∧ TwoDec p.summary.savings_rate
        ∧ ∀ q ∈ p.category_spending,
            q.2 = catExpenseAbs (filterByDate allTxns s eo) q.1)
    ∧ (∀ (allTxns : List Transaction) (a b c d : Date),
        TwoDec (compare_periods allTxns a b c d).period1.income
        ∧ TwoDec (compare_periods allTxns a b c d).period1.expenses
        ∧ TwoDec (compare_periods allTxns a b c d).period1.savings
        ∧ TwoDec (compare_periods allTxns a b c d).period2.income
        ∧ TwoDec (compare_periods allTxns a b c d).period2.expenses
        ∧ TwoDec (compare_periods allTxns a b c d).period2.savings
        ∧ TwoDec (compare_periods allTxns a b c d).changes.income_change
        ∧ TwoDec (compare_periods allTxns a b c d).changes.income_change_pct
        ∧ TwoDec (compare_periods allTxns a b c d).changes.expense_change
        ∧ TwoDec (compare_periods allTxns a b c d).changes.expense_change_pct)
    ∧ (∀ txns : List Transaction,
        TwoDec (get_stats txns).total_income
        ∧ TwoDec (get_stats txns).total_expenses
        ∧ TwoDec (get_stats txns).net_savings) := by
  refine ⟨?_, ?_, ?_, ?_⟩
  · intro txns e he
    rw [mem_analyze_monthly he]
    exact ⟨twoDec_round2 _, twoDec_round2 _, twoDec_round2 _, twoDec_round2 _⟩
  · intro allTxns s eo p h
    obtain ⟨h1, h2, h3, h4⟩ := get_analysis_ok_eq h
    refine ⟨h1 ▸ twoDec_round2 _, h2 ▸ twoDec_round2 _, h3 ▸ twoDec_round2 _,
      (get_analysis_ok h) ▸ twoDec_round2 _, ?_⟩
    intro q hq
    rw [h4] at hq
    exact analyze_spending_values _ q hq
  · intro allTxns a b c d
    exact ⟨(cp_period1_income allTxns a b c d) ▸ twoDec_round2 _,
      (cp_period1_expenses allTxns a b c d) ▸ twoDec_round2 _,
      (cp_period1_savings allTxns a b c d) ▸ twoDec_round2 _,
      (cp_period2_income allTxns a b c d) ▸ twoDec_round2 _,
      (cp_period2_expenses allTxns a b c d) ▸ twoDec_round2 _,
      (cp_period2_savings allTxns a b c d) ▸ twoDec_round2 _,
      (cp_income_change allTxns a b c d) ▸ twoDec_round2 _,
      (cp_income_change_pct allTxns a b c d) ▸ twoDec_round2 _,
      (cp_expense_change allTxns a b c d) ▸ twoDec_round2 _,
      (cp_expense_change_pct allTxns a b c d) ▸ twoDec_round2 _⟩
  · intro txns
    exact ⟨twoDec_round2 _, twoDec_round2 _, twoDec_round2 _⟩

/-- Witness for the amended C9 at a concrete store: the stats totals of
`exC9` are 2-decimal values. -/
theorem claim_C9_witness :
    TwoDec (get_stats exC9).total_income
    ∧ TwoDec (get_stats exC9).total_expenses
    ∧ TwoDec (get_stats exC9).net_savings :=
  claim_C9_amended.2.2.2 exC9

/-! ### Sign-flip invariance of expense aggregation -/

/-- Replace a transaction's amount by its negation, leaving every other
field unchanged. -/
def negAmount (t : Transaction) : Transaction := { t with amount := -t.amount }

/-- The combined date-range predicate applied by `filterByDate`. -/
def dateInRange (s e : Option Date) (d : Date) : Bool :=
  (match s with
   | some sd => dateLe sd d
   | none => true) &&
  (match e with
   | some ed => dateLe d ed
   | none => true)

theorem filterByDate_eq_filter (txns : List Transaction) (s e : Option Date) :
    filterByDate txns s e = txns.filter (fun t => dateInRange s e t.date) := by
  cases s with
  | none =>
    cases e with
    | none => simp [filterByDate, dateInRange]
    | some ed => simp [filterByDate, dateInRange]
  | some sd =>
    cases e with
    | none => simp [filterByDate, dateInRange]
    | some ed =>
      simp only [filterByDate, dateInRange]
      rw [List.filter_filter]
      congr 1
      funext t
      rw [Bool.and_comm]

theorem flip_incomeSum (pre post : List Transaction) (t : Transaction)
    (ht : t.type = TransactionType.expense) :
    incomeSum (pre ++ t :: post) = incomeSum (pre ++ negAmount t :: post) := by
  unfold incomeSum
  have h1 : (t.type == TransactionType.income) = false := by simp [ht]
  simp [List.filter_append, List.filter_cons, h1, negAmount]

theorem flip_expenseAbsSum (pre post : List Transaction) (t : Transaction) :
    expenseAbsSum (pre ++ t :: post) =
      expenseAbsSum (pre ++ negAmount t :: post) := by
  unfold expenseAbsSum
  by_cases hc : (t.type == TransactionType.expense) = true
  · simp [List.filter_append, List.filter_cons, hc, negAmount, abs_neg]
  · simp [List.filter_append, List.filter_cons, hc, negAmount]

theorem flip_monthlyIncome (pre post : List Transaction) (t : Transaction)
    (ht : t.type = TransactionType.expense) (m : Nat) :
    monthlyIncome (pre ++ t :: post) m =
      monthlyIncome (pre ++ negAmount t :: post) m := by
  unfold monthlyIncome
  have h1 : ((t.type == TransactionType.income) &&
      (monthIndex t.date == m)) = false := by simp [ht]
  simp [List.filter_append, List.filter_cons, h1, negAmount]

theorem flip_monthlyExpenses (pre post : List Transaction) (t : Transaction)
    (m : Nat) :
    monthlyExpenses (pre ++ t :: post) m =
      monthlyExpenses (pre ++ negAmount t :: post) m := by
  unfold monthlyExpenses
  by_cases hc : ((t.type == TransactionType.expense) &&
      (monthIndex t.date == m)) = true
  · simp [List.filter_append, List.filter_cons, hc, negAmount, abs_neg]
  · simp [List.filter_append, List.filter_cons, hc, negAmount]

theorem flip_mapDate (pre post : List Transaction) (t : Transaction) :
    (pre ++ t :: post).map (fun u => u.date) =
      (pre ++ negAmount t :: post).map (fun u => u.date) := by
  simp [negAmount]

theorem minDateOf_congr {l1 l2 : List Transaction}
    (h : l1.map (fun u => u.date) = l2.map (fun u => u.date)) :
    minDateOf l1 = minDateOf l2 := by
  cases l1 with
  | nil =>
    cases l2 with
    | nil => rfl
    | cons b l2 => simp at h
  | cons a l1 =>
    cases l2 with
    | nil => simp at h
    | cons b l2 =>
      simp only [List.map_cons, List.cons.injEq] at h
      simp only [minDateOf]
      rw [h.1, h.2]

theorem maxDateOf_congr {l1 l2 : List Transaction}
    (h : l1.map (fun u => u.date) = l2.map (fun u => u.date)) :
    maxDateOf l1 = maxDateOf l2 := by
  cases l1 with
  | nil =>
    cases l2 with
    | nil => rfl
    | cons b l2 => simp at h
  | cons a l1 =>
    cases l2 with
    | nil => simp at h
    | cons b l2 =>
      simp only [List.map_cons, List.cons.injEq] at h
      simp only [maxDateOf]
      rw [h.1, h.2]

theorem catAbsSum_flip (pre post : List Transaction) (t : Transaction)
    (c : String) :
    catAbsSum (pre ++ t :: post) c =
      catAbsSum (pre ++ negAmount t :: post) c := by
  unfold catAbsSum
  by_cases hc : (t.category == c) = true
  · simp [List.filter_append, List.filter_cons, hc, negAmount, abs_neg]
  · simp [List.filter_append, List.filter_cons, hc, negAmount]

theorem flip_analyze_spending (pre post : List Transaction) (t : Transaction)
    (ht : t.type = TransactionType.expense) :
    analyze_spending (pre ++ t :: post) =
      analyze_spending (pre ++ negAmount t :: post) := by
  have hc : (t.type == TransactionType.expense) = true := by simp [ht]
  have he1 : (pre ++ t :: post).filter
      (fun u => u.type == TransactionType.expense) =
      pre.filter (fun u => u.type == TransactionType.expense) ++ t ::
        post.filter (fun u => u.type == TransactionType.expense) := by
    simp [List.filter_append, List.filter_cons, hc]
  have he2 : (pre ++ negAmount t :: post).filter
      (fun u => u.type == TransactionType.expense) =
      pre.filter (fun u => u.type == TransactionType.expense) ++ negAmount t ::
        post.filter (fun u => u.type == TransactionType.expense) := by
    simp [List.filter_append, List.filter_cons, hc, negAmount]
  unfold analyze_spending
  rw [if_neg (by simp), if_neg (by simp), he1, he2]
  have hk : (pre.filter (fun u => u.type == TransactionType.expense) ++ t ::
      post.filter (fun u => u.type == TransactionType.expense)).map
        (fun u => u.category) =
      (pre.filter (fun u => u.type == TransactionType.expense) ++ negAmount t ::
        post.filter (fun u => u.type == TransactionType.expense)).map
          (fun u => u.category) := by
    simp [negAmount]
  have hf : (fun c => (c, catAbsSum
      (pre.filter (fun u => u.type == TransactionType.expense) ++ t ::
        post.filter (fun u => u.type == TransactionType.expense)) c)) =
      (fun c => (c, catAbsSum
        (pre.filter (fun u => u.type == TransactionType.expense) ++
          negAmount t ::
            post.filter (fun u => u.type == TransactionType.expense)) c)) :=
    funext fun c => by rw [catAbsSum_flip]
  rw [hk, hf]

theorem flip_analysisOf (pre post : List Transaction) (t : Transaction)
    (ht : t.type = TransactionType.expense) :
    analysisOf (pre ++ t :: post) = analysisOf (pre ++ negAmount t :: post) := by
  unfold analysisOf
  rw [if_neg (by simp), if_neg (by simp)]
  rw [flip_incomeSum pre post t ht, flip_expenseAbsSum pre post t,
    flip_analyze_spending pre post t ht,
    minDateOf_congr (flip_mapDate pre post t),
    maxDateOf_congr (flip_mapDate pre post t)]

theorem flip_monthEntry (pre post : List Transaction) (t : Transaction)
    (ht : t.type = TransactionType.expense) (m : Nat) :
    monthEntry (pre ++ t :: post) m =
      monthEntry (pre ++ negAmount t :: post) m := by
  unfold monthEntry
  rw [flip_monthlyIncome pre post t ht m, flip_monthlyExpenses pre post t m]

theorem flip_analyze_monthly (pre post : List Transaction) (t : Transaction)
    (ht : t.type = TransactionType.expense) :
    analyze_monthly (pre ++ t :: post) =
      analyze_monthly (pre ++ negAmount t :: post) := by
  unfold analyze_monthly
  rw [if_neg (by simp), if_neg (by simp)]
  rw [minDateOf_congr (flip_mapDate pre post t),
    maxDateOf_congr (flip_mapDate pre post t)]
  exact List.map_congr_left fun i _ => flip_monthEntry pre post t ht _

theorem flip_get_analysis (pre post : List Transaction) (t : Transaction)
    (ht : t.type = TransactionType.expense) (s e : Option Date) :
    get_analysis (pre ++ t :: post) s e =
      get_analysis (pre ++ negAmount t :: post) s e := by
  unfold get_analysis
  rw [filterByDate_eq_filter, filterByDate_eq_filter,
    List.filter_append, List.filter_append, List.filter_cons,
    List.filter_cons]
  have hcond : (dateInRange s e ((negAmount t).date)) =
      (dateInRange s e t.date) := rfl
  rw [hcond]
  by_cases hp : (dateInRange s e t.date) = true
  · rw [if_pos hp, if_pos hp]
    exact flip_analysisOf _ _ t ht
  · rw [if_neg hp, if_neg hp]

theorem flip_monthlyOf (pre post : List Transaction) (t : Transaction)
    (ht : t.type = TransactionType.expense) :
    monthlyOf (pre ++ t :: post) = monthlyOf (pre ++ negAmount t :: post) := by
  unfold monthlyOf
  rw [if_neg (by simp), if_neg (by simp), flip_analyze_monthly pre post t ht]

theorem flip_get_monthly_analysis (pre post : List Transaction)
    (t : Transaction) (ht : t.type = TransactionType.expense)
    (s e : Option Date) :
    get_monthly_analysis (pre ++ t :: post) s e =
      get_monthly_analysis (pre ++ negAmount t :: post) s e := by
  unfold get_monthly_analysis
  rw [filterByDate_eq_filter, filterByDate_eq_filter,
    List.filter_append, List.filter_append, List.filter_cons,
    List.filter_cons]
  have hcond : (dateInRange s e ((negAmount t).date)) =
      (dateInRange s e t.date) := rfl
  rw [hcond]
  by_cases hp : (dateInRange s e t.date) = true
  · rw [if_pos hp, if_pos hp]
    exact flip_monthlyOf _ _ t ht
  · rw [if_neg hp, if_neg hp]

theorem flip_periodIncome (pre post : List Transaction) (t : Transaction)
    (ht : t.type = TransactionType.expense) (a b : Date) :
    periodIncome (pre ++ t :: post) a b =
      periodIncome (pre ++ negAmount t :: post) a b := by
  unfold periodIncome
  rw [filterByDate_eq_filter, filterByDate_eq_filter,
    List.filter_append, List.filter_append, List.filter_cons,
    List.filter_cons]
  have hcond : (dateInRange (some a) (some b) ((negAmount t).date)) =
      (dateInRange (some a) (some b) t.date) := rfl
  rw [hcond]
  by_cases hp : (dateInRange (some a) (some b) t.date) = true
  · rw [if_pos hp, if_pos hp]
    rw [if_neg (by simp), if_neg (by simp)]
    exact flip_incomeSum _ _ t ht
  · rw [if_neg hp, if_neg hp]

theorem flip_periodExpenses (pre post : List Transaction) (t : Transaction)
    (a b : Date) :
    periodExpenses (pre ++ t :: post) a b =
      periodExpenses (pre ++ negAmount t :: post) a b := by
  unfold periodExpenses
  rw [filterByDate_eq_filter, filterByDate_eq_filter,
    List.filter_append, List.filter_append, List.filter_cons,
    List.filter_cons]
  have hcond : (dateInRange (some a) (some b) ((negAmount t).date)) =
      (dateInRange (some a) (some b) t.date) := rfl
  rw [hcond]
  by_cases hp : (dateInRange (some a) (some b) t.date) = true
  · rw [if_pos hp, if_pos hp]
    rw [if_neg (by simp), if_neg (by simp)]
    exact flip_expenseAbsSum _ _ t
  · rw [if_neg hp, if_neg hp]

theorem flip_compare_periods (pre post : List Transaction) (t : Transaction)
    (ht : t.type = TransactionType.expense) (a b c d : Date) :
    compare_periods (pre ++ t :: post) a b c d =
      compare_periods (pre ++ negAmount t :: post) a b c d := by
  unfold compare_periods
  rw [flip_periodIncome pre post t ht a b,
    flip_periodIncome pre post t ht c d,
    flip_periodExpenses pre post t a b,
    flip_periodExpenses pre post t c d]

/-- C4: in all four aggregations — category spending, the monthly
breakdown, the summary/analysis endpoint, and the period comparison —
replacing one expense record's amount x by -x leaves the entire output
unchanged (expense amounts enter as abs(amount)), while income amounts
enter sums with their stored sign unchanged: a single income record
contributes exactly its signed amount, and a single expense record
contributes its absolute value. -/
theorem claim_C4_sign_asymmetry (pre post : List Transaction)
    (t : Transaction) (ht : t.type = TransactionType.expense) :
    analyze_spending (pre ++ t :: post) =
        analyze_spending (pre ++ negAmount t :: post)
    ∧ analyze_monthly (pre ++ t :: post) =
        analyze_monthly (pre ++ negAmount t :: post)
    ∧ (∀ s e : Option Date, get_analysis (pre ++ t :: post) s e =
        get_analysis (pre ++ negAmount t :: post) s e)
    ∧ (∀ s e : Option Date, get_monthly_analysis (pre ++ t :: post) s e =
        get_monthly_analysis (pre ++ negAmount t :: post) s e)
    ∧ (∀ a b c d : Date, compare_periods (pre ++ t :: post) a b c d =
        compare_periods (pre ++ negAmount t :: post) a b c d)
    ∧ (∀ u : Transaction, u.type = TransactionType.income →
        incomeSum [u] = u.amount)
    ∧ (∀ u : Transaction, u.type = TransactionType.expense →
        expenseAbsSum [u] = |u.amount|) := by
  refine ⟨flip_analyze_spending pre post t ht,
    flip_analyze_monthly pre post t ht,
    fun s e => flip_get_analysis pre post t ht s e,
    fun s e => flip_get_monthly_analysis pre post t ht s e,
    fun a b c d => flip_compare_periods pre post t ht a b c d,
    ?_, ?_⟩
  · intro u hu
    simp [incomeSum, hu]
  · intro u hu
    simp [expenseAbsSum, hu]

/-- Witness for C4: the spec's concrete sign-normalization scenario — an
expense of -50 and an expense of 50 yield the same category spending. -/
theorem claim_C4_witness :
    analyze_spending
        [⟨⟨2024, 1, 15⟩, "Food", -50, TransactionType.expense, ""⟩] =
      analyze_spending
        [negAmount ⟨⟨2024, 1, 15⟩, "Food", -50, TransactionType.expense, ""⟩] :=
  (claim_C4_sign_asymmetry [] []
    ⟨⟨2024, 1, 15⟩, "Food", -50, TransactionType.expense, ""⟩ rfl).1

end BudgetAnalytics
